import Mathlib

/-!
Shallow embedding of the decision engine of `foto_check.py`:
the condition matcher (`rule_matches`), the rule engine
(`apply_config_rules`), the sensitivity classifier
(`calculate_sensitivity`), the decision orchestrator (`evaluate`) and the
legal-reference resolver (`resolve_legal_refs`), together with theorems
settling the specification claims about them.

Python dictionaries coming from the JSON configuration are modelled as
association lists over `String` keys; optional dictionary entries become
`Option` fields; Python code that can raise (`rule["decision"]`,
`Decision[...]`, `rule["message"]`) is modelled in the `Except` monad.
-/

namespace FotoCheck

/-- The three decision kinds of the `Decision` enum in `foto_check.py`. -/
inductive Decision where
  | ALLOWED
  | LIMITED
  | NOT_ALLOWED
deriving DecidableEq, Repr

/-- The `PhotoContext` dataclass: the facts about a photograph. -/
structure PhotoContext where
  minors : Bool
  identifiable : Bool
  group_photo : Bool
  prominent_subject : Bool
  channel : String
  consent_status : String
deriving DecidableEq, Repr

/-- A JSON-ish value as it can appear in a rule's `when` mapping:
a boolean, a string, or a list of strings (for `channel_in`). -/
inductive Value where
  | bool (b : Bool)
  | str (s : String)
  | strList (l : List String)
deriving DecidableEq, Repr

/-- A rule's `when` mapping, modelled as an association list
(`key → value`); lookup takes the first binding, as a Python dict
has at most one binding per key. -/
abbrev When := List (String × Value)

/-- One entry of the legal-reference catalog: `{label, url}`. -/
structure LegalRef where
  label : String
  url : String
deriving DecidableEq, Repr

/-- A configured rule.  Every field of the underlying dictionary is
optional: `rule.get(...)` calls in the source default absent fields,
while `rule["decision"]` and `rule["message"]` raise on absence. -/
structure Rule where
  id : Option String
  when : Option When
  decision : Option String
  message : Option String
  extra_reasons : Option (List String)
  legal_refs : Option (List String)
deriving DecidableEq, Repr

/-- The `Result` dataclass produced by an evaluation. -/
structure Result where
  decision : Decision
  message : String
  reasons : List String
  rule_id : Option String
  legal_ref_keys : Option (List String)
deriving DecidableEq, Repr

/-- The configuration structure: `rules_ordered` and
`legal_ref_catalog`, both read through `cfg.get(..., default)`. -/
structure Config where
  rules_ordered : Option (List Rule)
  legal_ref_catalog : Option (List (String × LegalRef))
deriving DecidableEq, Repr

/-- Dictionary lookup on an association list (first binding wins). -/
def alistLookup {α : Type} : List (String × α) → String → Option α
  | [], _ => none
  | (k, v) :: rest, key => if key = k then some v else alistLookup rest key

/-- Python membership `c in v` for a `when["channel_in"]` value:
membership for a list, substring for a string.  On a boolean value
Python raises `TypeError`; this total function collapses that case to
no match, and `rule_matches_checked` below transcribes the error path
faithfully for the claims whose subject is error behaviour. -/
def valueContains (v : Value) (c : String) : Bool :=
  match v with
  | Value.bool _ => false
  | Value.str s => decide (c.toList <:+: s.toList)
  | Value.strList l => l.contains c

/-- One guard of `rule_matches`:
`if k in when and ctx_field != when[k]: return False`.
Returns `true` when the guard fires (the rule is rejected). -/
def whenFieldBlocks (w : When) (k : String) (v : Value) : Bool :=
  match alistLookup w k with
  | none => false
  | some x => if x = v then false else true

/-- The `channel_in` guard of `rule_matches`:
`if "channel_in" in when and ctx.channel not in when["channel_in"]`. -/
def whenChannelBlocks (w : When) (c : String) : Bool :=
  match alistLookup w "channel_in" with
  | none => false
  | some v => if valueContains v c then false else true

/-- Transcription of `rule_matches(ctx, when)` from `foto_check.py`: the six guards in
source order, each returning `False` when it fires, else `True`.
Total variant: the `TypeError` a boolean `channel_in` value raises in
Python is collapsed to a non-match here; `rule_matches_checked` below
is the error-faithful transcription, and the two agree whenever the
checked one does not raise (`rule_matches_checked_refines`). -/
def rule_matches (ctx : PhotoContext) (w : When) : Bool :=
  if whenFieldBlocks w "consent_status" (Value.str ctx.consent_status) then false
  else if whenFieldBlocks w "minors" (Value.bool ctx.minors) then false
  else if whenFieldBlocks w "identifiable" (Value.bool ctx.identifiable) then false
  else if whenFieldBlocks w "group_photo" (Value.bool ctx.group_photo) then false
  else if whenFieldBlocks w "prominent_subject" (Value.bool ctx.prominent_subject) then false
  else if whenChannelBlocks w ctx.channel then false
  else true

/-- Transcription of `Decision[name]`, the name-indexed enum access, `none` models the
`KeyError` on an unrecognized name. -/
def decisionOfName : String → Option Decision
  | "ALLOWED" => some Decision.ALLOWED
  | "LIMITED" => some Decision.LIMITED
  | "NOT_ALLOWED" => some Decision.NOT_ALLOWED
  | _ => none

/-- Building the `Result(...)` for a matched rule, in the source's
argument order: `rule["decision"]` (KeyError on absence),
`Decision[...]` (KeyError on an unrecognized name), `rule["message"]`
(KeyError on absence), then the defaulted `rule.get(...)` fields. -/
def mkRuleResult (rule : Rule) (base_reasons : List String) : Except String Result :=
  match rule.decision with
  | none => Except.error "KeyError: decision"
  | some d =>
    match decisionOfName d with
    | none => Except.error ("KeyError: Decision name " ++ d)
    | some dec =>
      match rule.message with
      | none => Except.error "KeyError: message"
      | some msg =>
        Except.ok
          { decision := dec
            message := msg
            reasons := base_reasons ++ rule.extra_reasons.getD []
            rule_id := rule.id
            legal_ref_keys := some (rule.legal_refs.getD []) }

/-- The loop body of `apply_config_rules` over the rule list. -/
def applyRulesList (ctx : PhotoContext) (rules : List Rule) (base_reasons : List String) :
    Except String (Option Result) :=
  match rules with
  | [] => Except.ok none
  | rule :: rest =>
    if rule_matches ctx (rule.when.getD []) then
      (mkRuleResult rule base_reasons).map some
    else
      applyRulesList ctx rest base_reasons

/-- Transcription of `apply_config_rules(ctx, cfg, base_reasons)`: scan
`cfg.get("rules_ordered", [])` for the first matching rule; `ok none`
models the Python `None` return, `error` a propagating `KeyError`. -/
def apply_config_rules (ctx : PhotoContext) (cfg : Config) (base_reasons : List String) :
    Except String (Option Result) :=
  applyRulesList ctx (cfg.rules_ordered.getD []) base_reasons

/-- Transcription of `calculate_sensitivity(ctx)`: the fixed eight-branch cascade. -/
def calculate_sensitivity (ctx : PhotoContext) : String × String :=
  if ctx.consent_status = "teilweise" ∨ ctx.consent_status = "unbekannt" then
    ("HIGH", "🔶 Hohe Sensibilität – Einwilligung ist nicht vollständig geklärt.")
  else if ctx.prominent_subject && ctx.identifiable then
    (if ctx.minors then
      ("HIGH", "🔶 Hohe Sensibilität – hervorgehobene minderjährige Person.")
    else
      ("MEDIUM", "🟡 Erhöhte Sensibilität – hervorgehobene Person (portraitähnlich)."))
  else if ctx.minors && (ctx.channel == "social") then
    ("HIGH", "🔶 Hohe Sensibilität – Minderjährige in sozialen Medien.")
  else if ctx.minors && !ctx.group_photo then
    ("HIGH", "🔶 Hohe Sensibilität – Einzelportrait Minderjähriger.")
  else if ctx.minors then
    ("MEDIUM", "🟡 Erhöhte Sensibilität – Minderjährige beteiligt.")
  else if ctx.channel == "social" then
    ("MEDIUM", "🟡 Erhöhte Sensibilität – Veröffentlichung in sozialen Medien.")
  else if !ctx.group_photo then
    ("MEDIUM", "🟡 Erhöhte Sensibilität – Einzelportrait.")
  else
    ("LOW", "🟢 Niedrige Sensibilität.")

/-- The six base reason sentences built at the top of `evaluate`,
in source order. -/
def base_reasons_of (ctx : PhotoContext) : List String :=
  [ (if ctx.identifiable then "Personen sind erkennbar." else "Personen sind nicht erkennbar."),
    (if ctx.minors then "Minderjährige beteiligt." else "Keine Minderjährigen."),
    (if ctx.group_photo then "Gruppenfoto." else "Einzelportrait oder kleine Gruppe."),
    (if ctx.prominent_subject then
      "Eine oder wenige Personen sind deutlich hervorgehoben (portraitähnlich)."
    else
      "Keine einzelne Person ist deutlich hervorgehoben."),
    "Kanal: " ++ ctx.channel ++ ".",
    "Einwilligung: " ++ ctx.consent_status ++ "." ]

/-- Transcription of `evaluate(ctx, cfg)`: build the base reasons, apply the rules,
fall back to the permissive default when no rule matched.  (The Python
`if hit:` test is `hit is not None`, a dataclass being always truthy.) -/
def evaluate (ctx : PhotoContext) (cfg : Config) : Except String Result :=
  match apply_config_rules ctx cfg (base_reasons_of ctx) with
  | Except.error e => Except.error e
  | Except.ok (some hit) => Except.ok hit
  | Except.ok none =>
    Except.ok
      { decision := Decision.ALLOWED
        message := "🟢 ERLAUBT: Keine Regel greift restriktiv."
        reasons := base_reasons_of ctx
        rule_id := none
        legal_ref_keys := none }

/-- The loop of `resolve_legal_refs`: keep catalog entries of known
keys in input order, drop unknown keys. -/
def resolveLoop (catalog : List (String × LegalRef)) : List String → List LegalRef
  | [] => []
  | k :: rest =>
    match alistLookup catalog k with
    | some entry => entry :: resolveLoop catalog rest
    | none => resolveLoop catalog rest

/-- Transcription of `resolve_legal_refs(cfg, keys)`: the test
`if not keys: return []` catches
both `None` and the empty list, then the lookup loop runs over
`cfg.get("legal_ref_catalog", {})`. -/
def resolve_legal_refs (cfg : Config) (keys : Option (List String)) : List LegalRef :=
  match keys with
  | none => []
  | some ks =>
    if ks.isEmpty then []
    else resolveLoop (cfg.legal_ref_catalog.getD []) ks

/-- The first rule of `rules` whose `when` conditions hold in `ctx`. -/
def firstMatch (ctx : PhotoContext) (rules : List Rule) : Option Rule :=
  rules.find? (fun r => rule_matches ctx (r.when.getD []))

/-- A fixed context for concrete witnesses: an adult group photo for
print with full consent. -/
def ctxA : PhotoContext :=
  { minors := false, identifiable := false, group_photo := true,
    prominent_subject := false, channel := "print", consent_status := "alle" }

/-- A rule with an empty `when` mapping: it matches every context. -/
def ruleAlways : Rule :=
  { id := some "r1", when := some [], decision := some "LIMITED",
    message := some "msg", extra_reasons := some ["extra"],
    legal_refs := some ["kunsturhg"] }

/-- A configuration holding only `ruleAlways`. -/
def cfgA : Config :=
  { rules_ordered := some [ruleAlways], legal_ref_catalog := none }

/-- The rule list scan returns exactly the `Result` built from the
first matching rule (`List.find?`), or `ok none` when none matches. -/
theorem applyRulesList_eq_firstMatch (ctx : PhotoContext) (rules : List Rule)
    (base : List String) :
    applyRulesList ctx rules base =
      match firstMatch ctx rules with
      | none => Except.ok none
      | some rule => (mkRuleResult rule base).map some := by
  induction rules with
  | nil => rfl
  | cons r rest ih =>
    cases h : rule_matches ctx (r.when.getD []) with
    | true => simp [applyRulesList, firstMatch, List.find?_cons, h]
    | false => simpa [applyRulesList, firstMatch, List.find?_cons, h] using ih

/-- On success, the `Result` built for a matched rule carries the
rule's id, the appended reasons, and the (defaulted) legal refs. -/
theorem mkRuleResult_ok_fields (rule : Rule) (base : List String) (r : Result)
    (h : mkRuleResult rule base = Except.ok r) :
    r.rule_id = rule.id ∧ r.reasons = base ++ rule.extra_reasons.getD [] ∧
      r.legal_ref_keys = some (rule.legal_refs.getD []) := by
  cases hd : rule.decision with
  | none => simp [mkRuleResult, hd] at h
  | some d =>
    cases hdn : decisionOfName d with
    | none => simp [mkRuleResult, hd, hdn] at h
    | some dec =>
      cases hm : rule.message with
      | none => simp [mkRuleResult, hd, hdn, hm] at h
      | some msg =>
        simp only [mkRuleResult, hd, hdn, hm, Except.ok.injEq] at h
        subst h
        exact ⟨rfl, rfl, rfl⟩

/-- Mapping `some` over an `Except` reflects success: from
`e.map some = ok (some r)` follows `e = ok r`. -/
theorem except_map_some_ok {ε α : Type} (e : Except ε α) (r : α)
    (h : e.map some = Except.ok (some r)) : e = Except.ok r := by
  cases e with
  | error err => simp [Except.map] at h
  | ok a =>
    simp only [Except.map, Except.ok.injEq, Option.some.injEq] at h
    rw [h]

/-- C1: for every context, rule list and base-reason list,
`apply_config_rules` returns exactly the `Result` built from the first
rule in list order whose `when` conditions are satisfied (`ok none`
when no rule matches), and on success the `Result`'s `rule_id` is that
rule's `id`; the outcome is a function of the first match alone, so no
later rule influences it and no merging of multiple matches occurs. -/
theorem apply_config_rules_first_match_wins (ctx : PhotoContext) (cfg : Config)
    (base : List String) :
    (apply_config_rules ctx cfg base =
      match firstMatch ctx (cfg.rules_ordered.getD []) with
      | none => Except.ok none
      | some rule => (mkRuleResult rule base).map some) ∧
    (∀ rule r, firstMatch ctx (cfg.rules_ordered.getD []) = some rule →
      apply_config_rules ctx cfg base = Except.ok (some r) → r.rule_id = rule.id) := by
  refine ⟨applyRulesList_eq_firstMatch ctx _ base, ?_⟩
  intro rule r hfm hok
  unfold apply_config_rules at hok
  rw [applyRulesList_eq_firstMatch ctx _ base, hfm] at hok
  exact (mkRuleResult_ok_fields rule base r (except_map_some_ok _ _ hok)).1

/-- Witness for C1 at a concrete context and one-rule configuration. -/
theorem apply_config_rules_first_match_wins_witness :
    firstMatch ctxA (cfgA.rules_ordered.getD []) = some ruleAlways ∧
    apply_config_rules ctxA cfgA ["b"] = Except.ok (some
      { decision := Decision.LIMITED, message := "msg",
        reasons := ["b", "extra"], rule_id := some "r1",
        legal_ref_keys := some ["kunsturhg"] }) ∧
    ({ decision := Decision.LIMITED, message := "msg",
        reasons := ["b", "extra"], rule_id := some "r1",
        legal_ref_keys := some ["kunsturhg"] } : Result).rule_id = ruleAlways.id :=
  ⟨rfl, rfl,
    (apply_config_rules_first_match_wins ctxA cfgA ["b"]).2 ruleAlways _ rfl rfl⟩

/-- C6: when a rule matches, the returned `Result`'s reasons are the
base reasons followed by the matched rule's `extra_reasons` (empty
when the rule declares none), order preserved within each part. -/
theorem apply_config_rules_reasons_append (ctx : PhotoContext) (cfg : Config)
    (base : List String) (rule : Rule) (r : Result)
    (hfm : firstMatch ctx (cfg.rules_ordered.getD []) = some rule)
    (hok : apply_config_rules ctx cfg base = Except.ok (some r)) :
    r.reasons = base ++ rule.extra_reasons.getD [] := by
  unfold apply_config_rules at hok
  rw [applyRulesList_eq_firstMatch ctx _ base, hfm] at hok
  exact (mkRuleResult_ok_fields rule base r (except_map_some_ok _ _ hok)).2.1

/-- Witness for C6: the matched rule's extra reason is appended after
the base reason. -/
theorem apply_config_rules_reasons_append_witness :
    firstMatch ctxA (cfgA.rules_ordered.getD []) = some ruleAlways ∧
    apply_config_rules ctxA cfgA ["b"] = Except.ok (some
      { decision := Decision.LIMITED, message := "msg",
        reasons := ["b", "extra"], rule_id := some "r1",
        legal_ref_keys := some ["kunsturhg"] }) ∧
    (["b", "extra"] : List String) = ["b"] ++ ruleAlways.extra_reasons.getD [] :=
  ⟨rfl, rfl,
    apply_config_rules_reasons_append ctxA cfgA ["b"] ruleAlways _ rfl rfl⟩

/-- A key of `when` is satisfied when absent or bound to exactly the
context's value. -/
def keySat (w : When) (k : String) (v : Value) : Bool :=
  match alistLookup w k with
  | none => true
  | some x => if x = v then true else false

/-- The `channel_in` key is satisfied when absent or containing the
context's channel. -/
def channelSat (w : When) (c : String) : Bool :=
  match alistLookup w "channel_in" with
  | none => true
  | some v => valueContains v c

/-- The six `when` keys that `rule_matches` actually tests. -/
def recognizedKeys : List String :=
  ["consent_status", "minors", "identifiable", "group_photo",
   "prominent_subject", "channel_in"]

/-- Satisfaction of a key is the negation of its guard firing. -/
theorem keySat_eq_not_blocks (w : When) (k : String) (v : Value) :
    keySat w k v = !(whenFieldBlocks w k v) := by
  unfold keySat whenFieldBlocks
  cases alistLookup w k with
  | none => rfl
  | some x => by_cases hx : x = v <;> simp [hx]

/-- Satisfaction of `channel_in` is the negation of its guard firing. -/
theorem channelSat_eq_not_blocks (w : When) (c : String) :
    channelSat w c = !(whenChannelBlocks w c) := by
  unfold channelSat whenChannelBlocks
  cases alistLookup w "channel_in" with
  | none => rfl
  | some v => cases valueContains v c <;> simp

/-- The matcher is the conjunction of the six key satisfactions. -/
theorem rule_matches_eq_sat (ctx : PhotoContext) (w : When) :
    rule_matches ctx w =
      (keySat w "consent_status" (Value.str ctx.consent_status) &&
       keySat w "minors" (Value.bool ctx.minors) &&
       keySat w "identifiable" (Value.bool ctx.identifiable) &&
       keySat w "group_photo" (Value.bool ctx.group_photo) &&
       keySat w "prominent_subject" (Value.bool ctx.prominent_subject) &&
       channelSat w ctx.channel) := by
  simp only [rule_matches, keySat_eq_not_blocks, channelSat_eq_not_blocks]
  cases whenFieldBlocks w "consent_status" (Value.str ctx.consent_status) <;>
    cases whenFieldBlocks w "minors" (Value.bool ctx.minors) <;>
    cases whenFieldBlocks w "identifiable" (Value.bool ctx.identifiable) <;>
    cases whenFieldBlocks w "group_photo" (Value.bool ctx.group_photo) <;>
    cases whenFieldBlocks w "prominent_subject" (Value.bool ctx.prominent_subject) <;>
    cases whenChannelBlocks w ctx.channel <;> simp

/-- Lookup skips a binding with a different key. -/
theorem alistLookup_cons_ne {α : Type} (key k : String) (v : α)
    (w : List (String × α)) (h : key ≠ k) :
    alistLookup ((k, v) :: w) key = alistLookup w key := by
  simp [alistLookup, h]

/-- Lookup skips a binding with a different key anywhere in the list. -/
theorem alistLookup_middle_ne {α : Type} (key k : String) (v : α)
    (w1 w2 : List (String × α)) (h : key ≠ k) :
    alistLookup (w1 ++ (k, v) :: w2) key = alistLookup (w1 ++ w2) key := by
  induction w1 with
  | nil => exact alistLookup_cons_ne key k v w2 h
  | cons p rest ih =>
    obtain ⟨a, b⟩ := p
    by_cases ha : key = a <;> simp [alistLookup, ha, ih]

/-- The Condition Matcher as claim C2 words it: only the four boolean
keys (equality) and `channel_in` (membership) are recognized; every
other key — `consent_status` included — is ignored. -/
def rule_matches_claimC2 (ctx : PhotoContext) (w : When) : Bool :=
  keySat w "minors" (Value.bool ctx.minors) &&
  keySat w "identifiable" (Value.bool ctx.identifiable) &&
  keySat w "group_photo" (Value.bool ctx.group_photo) &&
  keySat w "prominent_subject" (Value.bool ctx.prominent_subject) &&
  channelSat w ctx.channel

/-- Counterexample to C2 as stated: under the claim a `when` holding
only `consent_status` never causes a non-match, but `rule_matches`
also tests `consent_status` by equality and rejects the context whose
consent is `alle` against an expected `teilweise`. -/
theorem rule_matches_claimC2_counterexample :
    rule_matches_claimC2 ctxA [("consent_status", Value.str "teilweise")] = true ∧
    rule_matches ctxA [("consent_status", Value.str "teilweise")] = false := by
  constructor <;> rfl

/-- C2 (amended): `rule_matches` returns true iff every key present in
`when` is satisfied, where the recognized keys are exactly the four
boolean fields and `consent_status` (each tested by equality with the
context's value, absence meaning satisfied) and `channel_in`
(membership of the context's channel); every key outside these six is
ignored and never causes a non-match. -/
theorem rule_matches_recognized_keys (ctx : PhotoContext) (w : When) :
    (rule_matches ctx w =
      (keySat w "consent_status" (Value.str ctx.consent_status) &&
       keySat w "minors" (Value.bool ctx.minors) &&
       keySat w "identifiable" (Value.bool ctx.identifiable) &&
       keySat w "group_photo" (Value.bool ctx.group_photo) &&
       keySat w "prominent_subject" (Value.bool ctx.prominent_subject) &&
       channelSat w ctx.channel)) ∧
    (∀ k v, k ∉ recognizedKeys →
      rule_matches ctx ((k, v) :: w) = rule_matches ctx w) := by
  refine ⟨rule_matches_eq_sat ctx w, ?_⟩
  intro k v hk
  simp only [recognizedKeys, List.mem_cons, List.not_mem_nil, or_false, not_or] at hk
  obtain ⟨h1, h2, h3, h4, h5, h6⟩ := hk
  simp only [rule_matches, whenFieldBlocks, whenChannelBlocks,
    alistLookup_cons_ne _ _ _ _ (Ne.symm h1),
    alistLookup_cons_ne _ _ _ _ (Ne.symm h2),
    alistLookup_cons_ne _ _ _ _ (Ne.symm h3),
    alistLookup_cons_ne _ _ _ _ (Ne.symm h4),
    alistLookup_cons_ne _ _ _ _ (Ne.symm h5),
    alistLookup_cons_ne _ _ _ _ (Ne.symm h6)]

/-- Witness for C2 (amended) at the empty `when` mapping and an
unrecognized key. -/
theorem rule_matches_recognized_keys_witness :
    (rule_matches ctxA [] =
      (keySat [] "consent_status" (Value.str ctxA.consent_status) &&
       keySat [] "minors" (Value.bool ctxA.minors) &&
       keySat [] "identifiable" (Value.bool ctxA.identifiable) &&
       keySat [] "group_photo" (Value.bool ctxA.group_photo) &&
       keySat [] "prominent_subject" (Value.bool ctxA.prominent_subject) &&
       channelSat [] ctxA.channel)) ∧
    "caption" ∉ recognizedKeys ∧
    rule_matches ctxA [("caption", Value.bool true)] = rule_matches ctxA [] :=
  ⟨(rule_matches_recognized_keys ctxA []).1, by decide,
   (rule_matches_recognized_keys ctxA []).2 "caption" (Value.bool true) (by decide)⟩

/-- Sub-mapping order: `w1 ⊆ w2` when every binding of `w1` is in `w2`. -/
def submap (w1 w2 : When) : Prop :=
  ∀ k v, alistLookup w1 k = some v → alistLookup w2 k = some v

/-- A key satisfied under a mapping is satisfied under any
sub-mapping. -/
theorem keySat_of_submap (w1 w2 : When) (k : String) (v : Value)
    (hsub : submap w1 w2) (h : keySat w2 k v = true) : keySat w1 k v = true := by
  unfold keySat at h ⊢
  cases hl : alistLookup w1 k with
  | none => rfl
  | some x => rw [hsub k x hl] at h; exact h

/-- The `channel_in` key satisfied under a mapping is satisfied under any
sub-mapping. -/
theorem channelSat_of_submap (w1 w2 : When) (c : String)
    (hsub : submap w1 w2) (h : channelSat w2 c = true) : channelSat w1 c = true := by
  unfold channelSat at h ⊢
  cases hl : alistLookup w1 "channel_in" with
  | none => rfl
  | some x => rw [hsub _ x hl] at h; exact h

/-- C7: the Condition Matcher is monotonic in specificity: whenever
`w1` is a sub-mapping of `w2` and `rule_matches` succeeds on `w2`, it
also succeeds on `w1` — a rule with fewer `when` keys matches a
superset of the contexts matched with additional keys added. -/
theorem rule_matches_monotonic (ctx : PhotoContext) (w1 w2 : When)
    (hsub : submap w1 w2) (h : rule_matches ctx w2 = true) :
    rule_matches ctx w1 = true := by
  rw [rule_matches_eq_sat] at h ⊢
  simp only [Bool.and_eq_true] at h ⊢
  obtain ⟨⟨⟨⟨⟨h1, h2⟩, h3⟩, h4⟩, h5⟩, h6⟩ := h
  exact ⟨⟨⟨⟨⟨keySat_of_submap w1 w2 _ _ hsub h1,
    keySat_of_submap w1 w2 _ _ hsub h2⟩,
    keySat_of_submap w1 w2 _ _ hsub h3⟩,
    keySat_of_submap w1 w2 _ _ hsub h4⟩,
    keySat_of_submap w1 w2 _ _ hsub h5⟩,
    channelSat_of_submap w1 w2 _ hsub h6⟩

/-- Witness for C7: the empty mapping is a sub-mapping of a singleton
that matches `ctxA`. -/
theorem rule_matches_monotonic_witness :
    submap [] [("minors", Value.bool false)] ∧
    rule_matches ctxA [("minors", Value.bool false)] = true ∧
    rule_matches ctxA [] = true :=
  ⟨fun _ _ h => Option.noConfusion h, rfl,
   rule_matches_monotonic ctxA [] [("minors", Value.bool false)]
     (fun _ _ h => Option.noConfusion h) rfl⟩

/-- C10: a plain `channel` key in a `when` mapping is ignored
entirely: adding or removing a `channel` binding anywhere never
changes `rule_matches`, and a mapping holding only `channel` matches
every context. -/
theorem rule_matches_channel_key_ignored (ctx : PhotoContext) (v : Value)
    (w1 w2 : When) :
    rule_matches ctx (w1 ++ ("channel", v) :: w2) = rule_matches ctx (w1 ++ w2) ∧
    rule_matches ctx [("channel", v)] = true := by
  constructor
  · simp only [rule_matches, whenFieldBlocks, whenChannelBlocks,
      alistLookup_middle_ne _ _ _ _ _ (show "consent_status" ≠ "channel" by decide),
      alistLookup_middle_ne _ _ _ _ _ (show "minors" ≠ "channel" by decide),
      alistLookup_middle_ne _ _ _ _ _ (show "identifiable" ≠ "channel" by decide),
      alistLookup_middle_ne _ _ _ _ _ (show "group_photo" ≠ "channel" by decide),
      alistLookup_middle_ne _ _ _ _ _ (show "prominent_subject" ≠ "channel" by decide),
      alistLookup_middle_ne _ _ _ _ _ (show "channel_in" ≠ "channel" by decide)]
  · rfl

/-- The tier cascade exactly as claim C3 words it: eight branches, top
to bottom, first match wins, tiers only. -/
def sensitivity_tier_spec (ctx : PhotoContext) : String :=
  if ctx.consent_status = "teilweise" ∨ ctx.consent_status = "unbekannt" then "HIGH"
  else if ctx.prominent_subject && ctx.identifiable then
    (if ctx.minors then "HIGH" else "MEDIUM")
  else if ctx.minors && (ctx.channel == "social") then "HIGH"
  else if ctx.minors && !ctx.group_photo then "HIGH"
  else if ctx.minors then "MEDIUM"
  else if ctx.channel == "social" then "MEDIUM"
  else if !ctx.group_photo then "MEDIUM"
  else "LOW"

/-- The spec's cascade-precedence scenario: a prominent identifiable
minor, single framing, social channel, consent unknown. -/
def ctxU : PhotoContext :=
  { minors := true, identifiable := true, group_photo := false,
    prominent_subject := true, channel := "social", consent_status := "unbekannt" }

/-- C3: `calculate_sensitivity` realizes the fixed eight-branch
cascade of the claim (first matching branch wins), always returns a
tier in {LOW, MEDIUM, HIGH}, and a consent status of `teilweise` or
`unbekannt` yields HIGH regardless of all other fields. -/
theorem calculate_sensitivity_cascade (ctx : PhotoContext) :
    (calculate_sensitivity ctx).1 = sensitivity_tier_spec ctx ∧
    ((calculate_sensitivity ctx).1 = "LOW" ∨ (calculate_sensitivity ctx).1 = "MEDIUM" ∨
      (calculate_sensitivity ctx).1 = "HIGH") ∧
    ((ctx.consent_status = "teilweise" ∨ ctx.consent_status = "unbekannt") →
      calculate_sensitivity ctx =
        ("HIGH", "🔶 Hohe Sensibilität – Einwilligung ist nicht vollständig geklärt.")) := by
  refine ⟨?_, ?_, ?_⟩
  · unfold calculate_sensitivity sensitivity_tier_spec
    split_ifs <;> rfl
  · unfold calculate_sensitivity
    split_ifs <;> simp
  · intro hc
    unfold calculate_sensitivity
    rw [if_pos hc]

/-- Witness for C3 at the spec's precedence scenario: the consent
branch fires before the minors/prominence branches. -/
theorem calculate_sensitivity_cascade_witness :
    (ctxU.consent_status = "teilweise" ∨ ctxU.consent_status = "unbekannt") ∧
    calculate_sensitivity ctxU =
      ("HIGH", "🔶 Hohe Sensibilität – Einwilligung ist nicht vollständig geklärt.") :=
  ⟨Or.inr rfl, (calculate_sensitivity_cascade ctxU).2.2 (Or.inr rfl)⟩

/-- A configuration with no `rules_ordered` entry at all. -/
def cfgE : Config := { rules_ordered := none, legal_ref_catalog := none }

/-- Evaluation in terms of the first matching rule: the default
`Result` when none matches, else the `Result` (or error) built from
the matched rule. -/
theorem evaluate_eq_firstMatch (ctx : PhotoContext) (cfg : Config) :
    evaluate ctx cfg =
      match firstMatch ctx (cfg.rules_ordered.getD []) with
      | none =>
        Except.ok
          { decision := Decision.ALLOWED
            message := "🟢 ERLAUBT: Keine Regel greift restriktiv."
            reasons := base_reasons_of ctx
            rule_id := none
            legal_ref_keys := none }
      | some rule => mkRuleResult rule (base_reasons_of ctx) := by
  unfold evaluate apply_config_rules
  rw [applyRulesList_eq_firstMatch]
  cases firstMatch ctx (cfg.rules_ordered.getD []) with
  | none => rfl
  | some rule =>
    show (match Except.map some (mkRuleResult rule (base_reasons_of ctx)) with
        | Except.error e => Except.error e
        | Except.ok (some hit) => Except.ok hit
        | Except.ok none =>
          Except.ok
            { decision := Decision.ALLOWED
              message := "🟢 ERLAUBT: Keine Regel greift restriktiv."
              reasons := base_reasons_of ctx
              rule_id := none
              legal_ref_keys := none }) = mkRuleResult rule (base_reasons_of ctx)
    cases mkRuleResult rule (base_reasons_of ctx) with
    | error e => rfl
    | ok res => rfl

/-- C4: whenever no rule matches — in particular for an empty rule
list — `evaluate` returns ALLOWED with the fixed permissive message,
reasons equal to the six base sentences in fixed order (each from its
positive/negative template pair), no rule id and no legal refs. -/
theorem evaluate_no_match_default (ctx : PhotoContext) (cfg : Config)
    (h : firstMatch ctx (cfg.rules_ordered.getD []) = none) :
    evaluate ctx cfg = Except.ok
      { decision := Decision.ALLOWED
        message := "🟢 ERLAUBT: Keine Regel greift restriktiv."
        reasons :=
          [ (if ctx.identifiable then "Personen sind erkennbar."
             else "Personen sind nicht erkennbar."),
            (if ctx.minors then "Minderjährige beteiligt." else "Keine Minderjährigen."),
            (if ctx.group_photo then "Gruppenfoto."
             else "Einzelportrait oder kleine Gruppe."),
            (if ctx.prominent_subject then
              "Eine oder wenige Personen sind deutlich hervorgehoben (portraitähnlich)."
            else
              "Keine einzelne Person ist deutlich hervorgehoben."),
            "Kanal: " ++ ctx.channel ++ ".",
            "Einwilligung: " ++ ctx.consent_status ++ "." ]
        rule_id := none
        legal_ref_keys := none } := by
  rw [evaluate_eq_firstMatch, h]
  rfl

/-- Witness for C4 at a concrete context and an empty configuration. -/
theorem evaluate_no_match_default_witness :
    firstMatch ctxA (cfgE.rules_ordered.getD []) = none ∧
    evaluate ctxA cfgE = Except.ok
      { decision := Decision.ALLOWED
        message := "🟢 ERLAUBT: Keine Regel greift restriktiv."
        reasons :=
          [ "Personen sind nicht erkennbar.", "Keine Minderjährigen.", "Gruppenfoto.",
            "Keine einzelne Person ist deutlich hervorgehoben.",
            "Kanal: print.", "Einwilligung: alle." ]
        rule_id := none
        legal_ref_keys := none } :=
  ⟨rfl, evaluate_no_match_default ctxA cfgE rfl⟩

/-- A matching rule whose `decision` is recognized but whose `message`
entry is absent. -/
def ruleNoMessage : Rule :=
  { id := some "r-nomsg", when := none, decision := some "ALLOWED",
    message := none, extra_reasons := none, legal_refs := none }

/-- A configuration holding only `ruleNoMessage`. -/
def cfgNoMessage : Config :=
  { rules_ordered := some [ruleNoMessage], legal_ref_catalog := none }

/-- Counterexample to C5 as stated: the first matching rule's
`decision` is the recognized `ALLOWED`, yet `evaluate` fails, because
`rule["message"]` is also read by direct indexing and is absent — so
the decision lookup is not the only place a malformed configuration
surfaces as a hard error. -/
theorem evaluate_missing_message_counterexample :
    ruleNoMessage.decision = some "ALLOWED" ∧
    firstMatch ctxA (cfgNoMessage.rules_ordered.getD []) = some ruleNoMessage ∧
    evaluate ctxA cfgNoMessage = Except.error "KeyError: message" :=
  ⟨rfl, rfl, rfl⟩

/-- Error-faithful transcription of `rule_matches(ctx, when)`: the
same six guards in source order, but the `channel_in` guard's
membership test `ctx.channel not in when["channel_in"]` raises
`TypeError` when the value is a boolean (a non-container), exactly as
Python does at that line.  Earlier guards short-circuit before it. -/
def rule_matches_checked (ctx : PhotoContext) (w : When) : Except String Bool :=
  if whenFieldBlocks w "consent_status" (Value.str ctx.consent_status) then Except.ok false
  else if whenFieldBlocks w "minors" (Value.bool ctx.minors) then Except.ok false
  else if whenFieldBlocks w "identifiable" (Value.bool ctx.identifiable) then Except.ok false
  else if whenFieldBlocks w "group_photo" (Value.bool ctx.group_photo) then Except.ok false
  else if whenFieldBlocks w "prominent_subject" (Value.bool ctx.prominent_subject) then
    Except.ok false
  else
    match alistLookup w "channel_in" with
    | none => Except.ok true
    | some (Value.bool _) => Except.error "TypeError: argument of type bool is not iterable"
    | some v => if valueContains v ctx.channel then Except.ok true else Except.ok false

/-- Error-faithful scan of `apply_config_rules`: a `TypeError` raised
while matching any rule propagates and stops the scan. -/
def applyRulesListChecked (ctx : PhotoContext) (rules : List Rule)
    (base_reasons : List String) : Except String (Option Result) :=
  match rules with
  | [] => Except.ok none
  | rule :: rest =>
    match rule_matches_checked ctx (rule.when.getD []) with
    | Except.error e => Except.error e
    | Except.ok true => (mkRuleResult rule base_reasons).map some
    | Except.ok false => applyRulesListChecked ctx rest base_reasons

/-- Error-faithful `apply_config_rules` over
`cfg.get("rules_ordered", [])`. -/
def apply_config_rules_checked (ctx : PhotoContext) (cfg : Config)
    (base_reasons : List String) : Except String (Option Result) :=
  applyRulesListChecked ctx (cfg.rules_ordered.getD []) base_reasons

/-- Error-faithful `evaluate`: identical to `evaluate` except that the
`TypeError` of the `channel_in` membership test also propagates. -/
def evaluate_checked (ctx : PhotoContext) (cfg : Config) : Except String Result :=
  match apply_config_rules_checked ctx cfg (base_reasons_of ctx) with
  | Except.error e => Except.error e
  | Except.ok (some hit) => Except.ok hit
  | Except.ok none =>
    Except.ok
      { decision := Decision.ALLOWED
        message := "🟢 ERLAUBT: Keine Regel greift restriktiv."
        reasons := base_reasons_of ctx
        rule_id := none
        legal_ref_keys := none }

/-- The first matching rule under the error-faithful matcher: the scan
stops at the first match, or at the first `TypeError`. -/
def findMatchChecked (ctx : PhotoContext) : List Rule → Except String (Option Rule)
  | [] => Except.ok none
  | r :: rest =>
    match rule_matches_checked ctx (r.when.getD []) with
    | Except.error e => Except.error e
    | Except.ok true => Except.ok (some r)
    | Except.ok false => findMatchChecked ctx rest

/-- The checked scan returns exactly the `Result` built from the first
cleanly matched rule, `ok none` on a clean no-match, and the scan's
`TypeError` otherwise. -/
theorem applyRulesListChecked_eq_findMatch (ctx : PhotoContext) (rules : List Rule)
    (base : List String) :
    applyRulesListChecked ctx rules base =
      match findMatchChecked ctx rules with
      | Except.error e => Except.error e
      | Except.ok none => Except.ok none
      | Except.ok (some rule) => (mkRuleResult rule base).map some := by
  induction rules with
  | nil => rfl
  | cons r rest ih =>
    unfold applyRulesListChecked findMatchChecked
    cases h : rule_matches_checked ctx (r.when.getD []) with
    | error e => rfl
    | ok b => cases b <;> simp [ih]

/-- Error-faithful evaluation in terms of the checked first match. -/
theorem evaluate_checked_eq_findMatch (ctx : PhotoContext) (cfg : Config) :
    evaluate_checked ctx cfg =
      match findMatchChecked ctx (cfg.rules_ordered.getD []) with
      | Except.error e => Except.error e
      | Except.ok none =>
        Except.ok
          { decision := Decision.ALLOWED
            message := "🟢 ERLAUBT: Keine Regel greift restriktiv."
            reasons := base_reasons_of ctx
            rule_id := none
            legal_ref_keys := none }
      | Except.ok (some rule) => mkRuleResult rule (base_reasons_of ctx) := by
  unfold evaluate_checked apply_config_rules_checked
  rw [applyRulesListChecked_eq_findMatch]
  cases findMatchChecked ctx (cfg.rules_ordered.getD []) with
  | error e => rfl
  | ok o =>
    cases o with
    | none => rfl
    | some rule =>
      show (match Except.map some (mkRuleResult rule (base_reasons_of ctx)) with
          | Except.error e => Except.error e
          | Except.ok (some hit) => Except.ok hit
          | Except.ok none =>
            Except.ok
              { decision := Decision.ALLOWED
                message := "🟢 ERLAUBT: Keine Regel greift restriktiv."
                reasons := base_reasons_of ctx
                rule_id := none
                legal_ref_keys := none }) = mkRuleResult rule (base_reasons_of ctx)
      cases mkRuleResult rule (base_reasons_of ctx) with
      | error e => rfl
      | ok res => rfl

/-- When the checked matcher does not raise, it agrees with the total
matcher `rule_matches`. -/
theorem rule_matches_checked_refines (ctx : PhotoContext) (w : When) (b : Bool)
    (h : rule_matches_checked ctx w = Except.ok b) : rule_matches ctx w = b := by
  unfold rule_matches_checked at h
  unfold rule_matches whenChannelBlocks
  cases g1 : whenFieldBlocks w "consent_status" (Value.str ctx.consent_status) <;>
    cases g2 : whenFieldBlocks w "minors" (Value.bool ctx.minors) <;>
    cases g3 : whenFieldBlocks w "identifiable" (Value.bool ctx.identifiable) <;>
    cases g4 : whenFieldBlocks w "group_photo" (Value.bool ctx.group_photo) <;>
    cases g5 : whenFieldBlocks w "prominent_subject" (Value.bool ctx.prominent_subject) <;>
    simp only [g1, g2, g3, g4, g5, if_true, if_false, Bool.false_eq_true,
      Except.ok.injEq] at h ⊢ <;>
    try exact h
  cases hcl : alistLookup w "channel_in" with
  | none => rw [hcl] at h; simp at h; simp [h]
  | some v =>
    rw [hcl] at h
    cases v with
    | bool bv => simp at h
    | str s => cases hvc : valueContains (Value.str s) ctx.channel <;> simp_all
    | strList l => cases hvc : valueContains (Value.strList l) ctx.channel <;> simp_all

/-- A clean checked scan finds exactly the `List.find?` first match. -/
theorem findMatchChecked_refines (ctx : PhotoContext) (rules : List Rule)
    (o : Option Rule) (h : findMatchChecked ctx rules = Except.ok o) :
    firstMatch ctx rules = o := by
  induction rules with
  | nil => simp only [findMatchChecked, Except.ok.injEq] at h; rw [← h]; rfl
  | cons r rest ih =>
    unfold findMatchChecked at h
    unfold firstMatch
    cases hm : rule_matches_checked ctx (r.when.getD []) with
    | error e => rw [hm] at h; simp at h
    | ok b =>
      rw [hm] at h
      have hb := rule_matches_checked_refines ctx (r.when.getD []) b hm
      cases b with
      | true =>
        simp only [Except.ok.injEq] at h
        rw [List.find?_cons, hb, ← h]
      | false =>
        rw [List.find?_cons, hb]
        exact ih h

/-- A matching rule that binds `channel_in` to a boolean: Python
raises `TypeError` while testing it. -/
def ruleBoolChannel : Rule :=
  { id := some "r-boolchan", when := some [("channel_in", Value.bool true)],
    decision := some "ALLOWED", message := some "m",
    extra_reasons := none, legal_refs := none }

/-- A configuration holding only `ruleBoolChannel`. -/
def cfgBoolChannel : Config :=
  { rules_ordered := some [ruleBoolChannel], legal_ref_catalog := none }

/-- A boolean `channel_in` value raises during matching even though
the rule's `decision` and `message` are well-formed: the decision and
message lookups are not the only hard-error sites. -/
theorem evaluate_checked_typeerror_example :
    ruleBoolChannel.decision = some "ALLOWED" ∧
    ruleBoolChannel.message = some "m" ∧
    evaluate_checked ctxA cfgBoolChannel =
      Except.error "TypeError: argument of type bool is not iterable" :=
  ⟨rfl, rfl, rfl⟩

/-- C5 (amended): an error propagates from `evaluate` exactly when the
rule scan raises a `TypeError` — a rule reached while matching binds
`channel_in` to a non-container value — or when the first matching
rule's `decision` is missing or not one of the three recognized kinds,
or its `message` entry is missing; whenever the scan cleanly reaches a
first matching rule carrying a recognized decision and a message, or
cleanly exhausts the list, `evaluate` returns a `Result` without
error. -/
theorem evaluate_error_characterization (ctx : PhotoContext) (cfg : Config) :
    (∃ r, evaluate_checked ctx cfg = Except.ok r) ↔
      (match findMatchChecked ctx (cfg.rules_ordered.getD []) with
       | Except.error _ => False
       | Except.ok none => True
       | Except.ok (some rule) =>
         (Option.bind rule.decision decisionOfName).isSome = true ∧
           rule.message.isSome = true) := by
  rw [evaluate_checked_eq_findMatch]
  cases findMatchChecked ctx (cfg.rules_ordered.getD []) with
  | error e => simp
  | ok o =>
    cases o with
    | none => simp
    | some rule =>
      cases hd : rule.decision with
      | none => simp [mkRuleResult, hd, Option.bind]
      | some d =>
        cases hdn : decisionOfName d with
        | none => simp [mkRuleResult, hd, hdn, Option.bind]
        | some dec =>
          cases hm : rule.message with
          | none => simp [mkRuleResult, hd, hdn, hm, Option.bind]
          | some msg => simp [mkRuleResult, hd, hdn, hm, Option.bind]

/-- The resolution loop is `List.filterMap` of the catalog lookup. -/
theorem resolveLoop_eq_filterMap (catalog : List (String × LegalRef))
    (ks : List String) :
    resolveLoop catalog ks = ks.filterMap (fun k => alistLookup catalog k) := by
  induction ks with
  | nil => rfl
  | cons k rest ih =>
    unfold resolveLoop
    cases h : alistLookup catalog k <;> simp [List.filterMap_cons, h, ih]

/-- C8: `resolve_legal_refs` returns the catalog entries of exactly
the input keys present in the catalog, in input order, silently
dropping unknown keys; it never fails, and `none` or an empty key list
yields the empty sequence. -/
theorem resolve_legal_refs_filters (cfg : Config) (ks : List String) :
    resolve_legal_refs cfg (some ks) =
      ks.filterMap (fun k => alistLookup (cfg.legal_ref_catalog.getD []) k) ∧
    resolve_legal_refs cfg none = [] ∧
    resolve_legal_refs cfg (some []) = [] := by
  refine ⟨?_, rfl, rfl⟩
  cases ks with
  | nil => rfl
  | cons k rest => simp [resolve_legal_refs, resolveLoop_eq_filterMap]

/-- The `Result` that `cfgA` produces on `ctxA`. -/
def resB : Result :=
  { decision := Decision.LIMITED, message := "msg",
    reasons :=
      [ "Personen sind nicht erkennbar.", "Keine Minderjährigen.", "Gruppenfoto.",
        "Keine einzelne Person ist deutlich hervorgehoben.",
        "Kanal: print.", "Einwilligung: alle.", "extra" ],
    rule_id := some "r1", legal_ref_keys := some ["kunsturhg"] }

/-- C9: the no-match and rule-match cases are distinguishable through
`legal_ref_keys`: when no rule matches the `Result` carries `none`,
and when a rule matches it carries `some` of the matched rule's
`legal_refs` list, the empty list when the rule declares none. -/
theorem evaluate_legal_ref_keys_distinguishes (ctx : PhotoContext) (cfg : Config)
    (r : Result) (h : evaluate ctx cfg = Except.ok r) :
    (firstMatch ctx (cfg.rules_ordered.getD []) = none → r.legal_ref_keys = none) ∧
    (∀ rule, firstMatch ctx (cfg.rules_ordered.getD []) = some rule →
      r.legal_ref_keys = some (rule.legal_refs.getD [])) := by
  rw [evaluate_eq_firstMatch] at h
  constructor
  · intro hfm
    rw [hfm] at h
    simp only [Except.ok.injEq] at h
    rw [← h]
  · intro rule hfm
    rw [hfm] at h
    have h2 : mkRuleResult rule (base_reasons_of ctx) = Except.ok r := h
    exact (mkRuleResult_ok_fields rule _ r h2).2.2

/-- Witness for C9: with `cfgA` the matched rule's `legal_refs` list
surfaces in the `Result`. -/
theorem evaluate_legal_ref_keys_distinguishes_witness :
    evaluate ctxA cfgA = Except.ok resB ∧
    firstMatch ctxA (cfgA.rules_ordered.getD []) = some ruleAlways ∧
    resB.legal_ref_keys = some (ruleAlways.legal_refs.getD []) :=
  ⟨rfl, rfl,
   (evaluate_legal_ref_keys_distinguishes ctxA cfgA resB rfl).2 ruleAlways rfl⟩

end FotoCheck
